import Mathlib

/-!
Verification of the airbridge repository (state extraction, manifest
handling, scheduler, docker orchestration) via a shallow embedding of the
Python sources `src/airbridge/state.py`, `src/airbridge/scheduler.py` and
`src/airbridge/run.py` into Lean.

JSON values are modelled by an inductive `Json` type; Python runtime
errors (KeyError, AttributeError, TypeError, json.JSONDecodeError, docker
errors) are modelled by the `PyErr` type, and fallible Python code is
embedded as functions into `Except PyErr _`.
-/

namespace Airbridge

/-- Errors a Python execution can raise in the fragments we embed. -/
inductive PyErr where
  /-- `json.JSONDecodeError`, re-raised as `Exception("Error decoding JSON: ...")`
  by `StateExtractor.extract_state_from_data`. -/
  | jsonDecodeError
  /-- Python `KeyError` from subscripting a dict with a missing key. -/
  | keyError
  /-- Python `TypeError` (bad operand types, subscripting a non-container, ...). -/
  | typeError
  /-- Python `AttributeError` (e.g. calling `.get` on a value that is not a dict). -/
  | attributeError
  /-- A docker API error raised while starting a container. -/
  | apiError
  /-- `ContainerExecutionError` raised by `_run_container_with_entrypoint`. -/
  | containerExecutionError
  /-- `ConfigurationError` raised by `run_image_check`. -/
  | configurationError
  deriving DecidableEq, Repr

/-- JSON values, as produced by `json.loads`.  Numbers are modelled as
integers (all numeric fields the program manipulates — `created`,
`timestamp` — are integral epochs). -/
inductive Json where
  | null
  | bool (b : Bool)
  | num (n : Int)
  | str (s : String)
  | arr (elems : List Json)
  | obj (fields : List (String × Json))
  deriving Repr

/-- Python truthiness (`if not stream_data:`): `None`, `False`, `0`, `""`,
`[]` and `{}` are falsy, everything else is truthy. -/
def pyFalsy : Json → Bool
  | .null => true
  | .bool b => !b
  | .num n => n == 0
  | .str s => s == ""
  | .arr es => es.isEmpty
  | .obj fs => fs.isEmpty

/-- Lookup of a string key in the field list of a JSON object
(first occurrence; Python dict keys are unique). -/
def fieldLookup (k : String) : List (String × Json) → Option Json
  | [] => none
  | (k', v) :: rest => if k' = k then some v else fieldLookup k rest

/-- Python subscripting `obj[k]` with a string key `k`: on a dict it
returns the value or raises `KeyError`; on any other value it raises
`TypeError` (lists/strings reject string indices). -/
def pySubscript (j : Json) (k : String) : Except PyErr Json :=
  match j with
  | .obj fs =>
    match fieldLookup k fs with
    | some v => .ok v
    | none => .error .keyError
  | _ => .error .typeError

/-- Python `d.get(k, default)`: only dicts have a `.get` attribute, any
other receiver raises `AttributeError`. -/
def pyDictGet (j : Json) (k : String) (default : Json) : Except PyErr Json :=
  match j with
  | .obj fs => .ok ((fieldLookup k fs).getD default)
  | _ => .error .attributeError

/-- Is a list of characters a prefix of another (helper for Python's
substring containment test on strings)? -/
def charsLeadWith : List Char → List Char → Bool
  | [], _ => true
  | _ :: _, [] => false
  | a :: as, b :: bs => a == b && charsLeadWith as bs

/-- Does `hay` contain `needle` as a contiguous substring? -/
def charsContain (needle : List Char) : List Char → Bool
  | [] => needle.isEmpty
  | c :: rest => charsLeadWith needle (c :: rest) || charsContain needle rest

/-- Python membership `k in j` for a string `k`: key membership for dicts,
element equality for lists, substring test for strings, `TypeError`
for other values. -/
def pyContains (j : Json) (k : String) : Except PyErr Bool :=
  match j with
  | .obj fs => .ok (fs.any (fun kv => kv.1 == k))
  | .arr es => .ok (es.any (fun e => match e with | .str s => s == k | _ => false))
  | .str s => .ok (charsContain k.data s.data)
  | _ => .error .typeError

/-- Python `a < b` on the values the extractor compares (`created`
fields): numeric comparison when both sides are numbers (`bool` counts as
`0`/`1`, as in Python), lexicographic comparison for two strings, and
`TypeError` otherwise (the mixed cases Python rejects; exotic same-type
cases such as list-vs-list are collapsed to `TypeError`, which no claim
exercises). -/
def pyLt (a b : Json) : Except PyErr Bool :=
  match a, b with
  | .num x, .num y => .ok (decide (x < y))
  | .num x, .bool y => .ok (decide (x < (if y then 1 else 0)))
  | .bool x, .num y => .ok (decide ((if x then 1 else 0 : Int) < y))
  | .bool x, .bool y => .ok (decide ((if x then 1 else 0 : Int) < (if y then 1 else 0)))
  | .str x, .str y => .ok (decide (x < y))
  | _, _ => .error .typeError

/-- A value used as a dict key.  The embedding restricts keys (stream
names) to strings; every stream name the program's data carries is the
string from `stream_descriptor.name`. -/
def pyAsKey (j : Json) : Except PyErr String :=
  match j with
  | .str s => .ok s
  | _ => .error .typeError

/-- The running `final_state` dict of `extract_state_from_data`: stream
name to the stored per-stream payload, in insertion order. -/
abbrev Snapshot := List (String × Json)

/-- Lookup in a snapshot (Python `final_state[stream_name]` /
`stream_name in final_state`). -/
def Snapshot.get? (fs : Snapshot) (k : String) : Option Json :=
  match fs with
  | [] => none
  | (k', v) :: rest => if k' = k then some v else Snapshot.get? rest k

/-- Python dict assignment `final_state[stream_name] = stream_data`:
overwrite in place when the key exists, append otherwise. -/
def Snapshot.set (fs : Snapshot) (k : String) (v : Json) : Snapshot :=
  match fs with
  | [] => [(k, v)]
  | (k', v') :: rest =>
    if k' = k then (k', v) :: rest else (k', v') :: Snapshot.set rest k v

/-- One line of run output, as seen through `json.loads`: `some j` when
the line decodes to the JSON value `j`, `none` when decoding raises
`json.JSONDecodeError`. -/
abbrev Line := Option Json

/-- The snapshot update of `state.py` lines 106-109: store `streamData`
under `name` iff `name` is absent from the snapshot or the stored
payload's `created` (default `0`) is strictly less than the new payload's
`created` (default `0`); reading `created` off a non-dict payload raises
`AttributeError`, mirroring `.get`. -/
def updateStream (fs : Snapshot) (name : String) (streamData : Json) :
    Except PyErr Snapshot :=
  match Snapshot.get? fs name with
  | none => .ok (Snapshot.set fs name streamData)
  | some cur =>
    match pyDictGet cur "created" (.num 0) with
    | .error e => .error e
    | .ok curCreated =>
      match pyDictGet streamData "created" (.num 0) with
      | .error e => .error e
      | .ok newCreated =>
        match pyLt curCreated newCreated with
        | .error e => .error e
        | .ok b => .ok (if b then Snapshot.set fs name streamData else fs)

/-- Processing of one output line by `extract_state_from_data`
(`state.py` lines 93-111): decode the line, and when it carries a
`"state"` key, resolve the stream name and per-stream payload (an empty
or falsy payload is replaced by `{"created": 0}`) and apply the snapshot
update. -/
def processLine (fs : Snapshot) (line : Line) : Except PyErr Snapshot :=
  match line with
  | none => .error .jsonDecodeError
  | some obj =>
    match pyContains obj "state" with
    | .error e => .error e
    | .ok false => .ok fs
    | .ok true =>
      match pySubscript obj "state" with
      | .error e => .error e
      | .ok st =>
        match (do pyAsKey (← pySubscript (← pySubscript (← pySubscript st "stream")
            "stream_descriptor") "name") : Except PyErr String) with
        | .error e => .error e
        | .ok streamName =>
          match pySubscript st "data" with
          | .error e => .error e
          | .ok dataDict =>
            match pyDictGet dataDict streamName (.obj []) with
            | .error e => .error e
            | .ok sd0 =>
              let streamData :=
                if pyFalsy sd0 then Json.obj [("created", Json.num 0)] else sd0
              updateStream fs streamName streamData

/-- The extraction loop over the list of output lines. -/
def extractLines (fs : Snapshot) : List Line → Except PyErr Snapshot
  | [] => .ok fs
  | l :: ls =>
    match processLine fs l with
    | .error e => .error e
    | .ok fs' => extractLines fs' ls

/-- The argument of `extract_state_from_data`: a single JSON object
(`isinstance(data, dict)`) or a list of output lines. -/
inductive ExtractData where
  | dict (j : Json)
  | list (ls : List Line)

/-- `StateExtractor.extract_state_from_data` (`state.py` lines 77-114).
The dict branch binds `obj = data` and falls through without touching
`final_state`; the list branch folds `processLine` over the lines; the
final `return final_state if test_state is None else test_state` is the
`testState` override. -/
def extract_state_from_data (data : ExtractData) (testState : Option Snapshot) :
    Except PyErr Snapshot :=
  match data with
  | .dict _ => .ok (testState.getD [])
  | .list ls =>
    match extractLines [] ls with
    | .error e => .error e
    | .ok fs => .ok (testState.getD fs)

/-! ### Manifest handling (`state.py`, `ManifestUtility`) -/

/-- Lookup of a string key in an insertion-ordered map (used for the
manifest's job-key map; Python dict keys are unique, so the first match
is the match). -/
def alistLookup {α : Type} (k : String) : List (String × α) → Option α
  | [] => none
  | (k', v) :: rest => if k' = k then some v else alistLookup k rest

/-- The on-disk manifest file seen by `save_manifest_content`:
`absent` when the file does not exist, `present none` when it exists but
is empty (or whitespace), `present (some m)` when it holds the JSON map
`m` from job keys to lists of entries (entries kept abstract). -/
inductive ManifestFile (α : Type) where
  | absent
  | present (content : Option (List (String × List α)))

/-- Reading the existing manifest (`state.py` lines 210-228): an absent
file and an empty file both yield the empty map. -/
def loadExistingManifest {α : Type} : ManifestFile α → List (String × List α)
  | .absent => []
  | .present none => []
  | .present (some m) => m

/-- `existing.setdefault(key, []).extend(new_records)` on an
insertion-ordered map: append `recs` to the list at `k` when `k` is
present, otherwise insert `(k, recs)` at the end. -/
def setdefaultExtend {α : Type} : List (String × List α) → String → List α →
    List (String × List α)
  | [], k, recs => [(k, recs)]
  | (k', v) :: rest, k, recs =>
    if k' = k then (k', v ++ recs) :: rest
    else (k', v) :: setdefaultExtend rest k recs

/-- The merge loop of `save_manifest_content` (`state.py` lines 230-232):
fold `setdefaultExtend` over the new content's items. -/
def mergeManifest {α : Type} (existing newContent : List (String × List α)) :
    List (String × List α) :=
  newContent.foldl (fun acc kv => setdefaultExtend acc kv.1 kv.2) existing

/-- `ManifestUtility.save_manifest_content` (`state.py` lines 196-258):
the map written back to `manifest.json`, as a function of the previous
file state and the new manifest content. -/
def save_manifest_content {α : Type} (file : ManifestFile α)
    (manifestContent : List (String × List α)) : List (String × List α) :=
  mergeManifest (loadExistingManifest file) manifestContent

/-! ### Scheduler (`scheduler.py`) -/

/-- A manifest entry as read by the scheduler
(`_get_max_state_from_manifest` accesses only `timestamp` and
`state_file_path`; the remaining fields written by
`generate_manifest_content` are irrelevant to it). -/
structure ManifestEntry where
  timestamp : Int
  state_file_path : String
  deriving DecidableEq, Repr

/-- The Python value `_get_max_state_from_manifest` returns: the empty
dict `{}` when no checkpoint is found, otherwise the bare string
`max_state['state_file_path']`. -/
inductive StateLoc where
  | emptyDict
  | path (p : String)
  deriving DecidableEq, Repr

/-- The `for state in states` loop of `_get_max_state_from_manifest`
(`scheduler.py` lines 84-89): `max_state` starts falsy so the first entry
is taken, after which an entry replaces it only when its `timestamp` is
strictly greater. -/
def maxStateLoop (first : ManifestEntry) (rest : List ManifestEntry) : ManifestEntry :=
  rest.foldl (fun mx st => if st.timestamp > mx.timestamp then st else mx) first

/-- `Scheduler._get_max_state_from_manifest` (`scheduler.py` lines
76-90): `{}` when the manifest file is absent or the task's entry list is
absent or empty, otherwise the `state_file_path` of the entry the loop
selects.  The manifest file is `none` when absent, `some m` when it
holds the parsed map `m`. -/
def getMaxStateFromManifest (manifest : Option (List (String × List ManifestEntry)))
    (taskId : String) : StateLoc :=
  match manifest with
  | none => .emptyDict
  | some m =>
    match alistLookup taskId m with
    | none => .emptyDict
    | some [] => .emptyDict
    | some (e :: es) => .path (maxStateLoop e es).state_file_path

/-- A scheduler task (the fields `_render_task_cmd` reads). -/
structure Task where
  id : String
  source_image : String
  dest_image : String

/-- The scheduler's directory configuration (`config['dirs']`). -/
structure SchedDirs where
  output : String
  base : String
  configs : String

/-- Python `state.get('path')` inside `_render_task_cmd`
(`scheduler.py` line 105): on the empty dict it yields `None`; on the
bare path string returned by `_get_max_state_from_manifest` it raises
`AttributeError`, because `str` has no `get` attribute. -/
def stateLocGet (state : StateLoc) : Except PyErr (Option String) :=
  match state with
  | .emptyDict => .ok none
  | .path _ => .error .attributeError

/-- The rendered `TASK_COMMAND` template (`scheduler.py` lines 29-36),
with runs of whitespace normalised to single spaces (the template's
literal indentation padding carries no information; the `-t` argument is
emitted iff `state_loc` is truthy). -/
def taskCommand (task : Task) (dirs : SchedDirs) (stateLoc : Option String) : String :=
  "sudo python3 " ++ dirs.base ++ "/run.py -i " ++ task.source_image ++
    " -w " ++ task.dest_image ++
    " -s " ++ dirs.configs ++ "/" ++ task.id ++ "/source.json" ++
    " -d " ++ dirs.configs ++ "/" ++ task.id ++ "/destination.json" ++
    " -c " ++ dirs.configs ++ "/" ++ task.id ++ "/catalog.json " ++
    (match stateLoc with
     | some p => "-t " ++ p ++ " "
     | none => "") ++
    "-o " ++ dirs.output ++ "/" ++ task.id

/-- `Scheduler._render_task_cmd` (`scheduler.py` lines 97-107):
evaluates `state.get('path')` and renders the template. -/
def render_task_cmd (task : Task) (dirs : SchedDirs) (state : StateLoc) :
    Except PyErr String :=
  match stateLocGet state with
  | .error e => .error e
  | .ok stateLoc => .ok (taskCommand task dirs stateLoc)

/-- `SELECT MAX(time) ... WHERE name = ?` over the recorded run times of
one task, followed by the truthiness test of `scheduler.py` lines
187-192: `NULL` (no rows) and `0` both give a last run time of `0`. -/
def lastRunTime (recorded : List Int) : Int :=
  match recorded.max? with
  | none => 0
  | some m => if m = 0 then 0 else m

/-- The scheduling decision for one enabled task. -/
inductive TaskDecision where
  | run
  | skip
  deriving DecidableEq, Repr

/-- The schedule gate of `Scheduler.run` (`scheduler.py` line 197): the
task runs iff `cron.get_prev() >= last_run_time`, where `prevFire` is
the most recent scheduled cron fire time computed by
`croniter(...).get_prev()` and `recorded` are the task's rows in
`task_run_time`. -/
def schedulerTaskDecision (prevFire : Int) (recorded : List Int) : TaskDecision :=
  if prevFire ≥ lastRunTime recorded then .run else .skip

/-! ### Docker orchestration (`run.py`) -/

/-- The docker-side effects we track: every container name ever passed to
`client.containers.run`, the set of currently existing containers, and
every name on which a removal was requested (or confirmed absent) by
`cleanup_container`. -/
structure DockerWorld where
  started : List String
  existing : List String
  removeCalls : List String
  deriving DecidableEq, Repr

/-- The mutable handler state the claims are about:
`self.active_containers`. -/
structure Handler where
  active_containers : List String
  deriving DecidableEq, Repr

/-- `AirbyteDockerHandler.cleanup_container` (`run.py` lines 406-439):
fetch the container and remove it with force; a missing container
(`NotFound`) also counts as success.  Docker API errors (which make it
return `False`) are outside this model. -/
def cleanup_container (w : DockerWorld) (name : String) : DockerWorld × Bool :=
  ({ w with existing := w.existing.erase name,
            removeCalls := w.removeCalls ++ [name] }, true)

/-- Whether `client.containers.run` itself fails to start the container
(image or API error) — a parameter of the execution. -/
inductive StartOutcome where
  | ok
  | apiError
  deriving DecidableEq, Repr

/-- `AirbyteDockerHandler.run_image_check` (`run.py` lines 538-573).
`containers.run` is called with `detach=True`, so it returns the
container immediately and — per docker-py semantics — never raises
`ContainerError` for a non-zero exit status (`ContainerError` is raised
only when `detach=False`); `container.wait()` returns the exit status as
a dict, which the code discards, and `auto_remove=True` removes the
container after it exits.  The `finally` block always runs
`cleanup_container`.  `checkExitCode` is the exit status of the
validation container. -/
def run_image_check (h : Handler) (w : DockerWorld) (containerName : String)
    (start : StartOutcome) (checkExitCode : Int) : Handler × DockerWorld × Except PyErr Unit :=
  match start with
  | .apiError =>
    let w1 := { w with started := w.started ++ [containerName] }
    let (w2, _) := cleanup_container w1 containerName
    (h, w2, .error .apiError)
  | .ok =>
    let w1 := { w with started := w.started ++ [containerName],
                       existing := w.existing ++ [containerName] }
    let h1 := { h with active_containers := h.active_containers ++ [containerName] }
    let w2 := { w1 with existing := w1.existing.erase containerName }
    let (w3, _) := cleanup_container w2 containerName
    let _ := checkExitCode
    (h1, w3, .ok ())

/-- `AirbyteDockerHandler._run_container_with_entrypoint` (`run.py`
lines 575-615): starts a container with `detach=False` and
`auto_remove=True` (so it is gone again once the call returns), raising
`ContainerExecutionError` when the run fails.  Note that
`self.active_containers` is never touched here. -/
def run_container_with_entrypoint (h : Handler) (w : DockerWorld) (containerName : String)
    (runFails : Bool) : Handler × DockerWorld × Except PyErr Unit :=
  let w1 := { w with started := w.started ++ [containerName] }
  if runFails then (h, w1, .error .containerExecutionError)
  else (h, w1, .ok ())

/-- `process_src_image` / `process_dst_image` inside
`AirbyteDockerHandler.execute` (`run.py` lines 660-709): pull the image,
run the configuration check, then run the sync container; any exception
is caught and turned into `False`. -/
def process_image (h : Handler) (w : DockerWorld) (checkName runName : String)
    (start : StartOutcome) (checkExitCode : Int) (runFails : Bool) :
    Handler × DockerWorld × Bool :=
  let (h1, w1, r1) := run_image_check h w checkName start checkExitCode
  match r1 with
  | .error _ => (h1, w1, false)
  | .ok _ =>
    let (h2, w2, r2) := run_container_with_entrypoint h1 w1 runName runFails
    match r2 with
    | .error _ => (h2, w2, false)
    | .ok _ => (h2, w2, true)

/-- One iteration of the `final_cleanup` loop: clean the name up and,
when cleanup reports success, drop it from the live list. -/
def finalCleanupStep (acc : List String × DockerWorld) (name : String) :
    List String × DockerWorld :=
  let (w', ok) := cleanup_container acc.2 name
  (if ok then acc.1.erase name else acc.1, w')

/-- `AirbyteDockerHandler.final_cleanup` (`run.py` lines 721-726):
iterate over a copy of `active_containers`, clean each name up, and
remove from the live list the names whose cleanup succeeded. -/
def final_cleanup (h : Handler) (w : DockerWorld) : Handler × DockerWorld :=
  let (act', w') := h.active_containers.foldl finalCleanupStep (h.active_containers, w)
  (⟨act'⟩, w')

/-- A well-formed Airbyte STATE output line for stream `name` whose
per-stream payload is `{"created": created}` (used as concrete test
data for the extraction claims). -/
def stateLine (name : String) (created : Int) : Line :=
  some (Json.obj [("state", Json.obj [
    ("stream", Json.obj [("stream_descriptor", Json.obj [("name", Json.str name)])]),
    ("data", Json.obj [(name, Json.obj [("created", Json.num created)])])])])

/-! ### Helper lemmas -/

/-- The entry selected by the `_get_max_state_from_manifest` loop is one
of the entries of the list. -/
theorem maxStateLoop_mem (first : ManifestEntry) (rest : List ManifestEntry) :
    maxStateLoop first rest ∈ first :: rest := by
  induction rest generalizing first with
  | nil => simp [maxStateLoop]
  | cons e es ih =>
    simp only [maxStateLoop, List.foldl_cons]
    have h := ih (if e.timestamp > first.timestamp then e else first)
    simp only [maxStateLoop] at h
    rcases List.mem_cons.mp h with h1 | h2
    · rw [h1]
      by_cases hc : e.timestamp > first.timestamp <;> simp [hc]
    · simp [List.mem_cons, h2]

/-- The entry selected by the `_get_max_state_from_manifest` loop has the
maximal `timestamp` among the entries of the list. -/
theorem maxStateLoop_ge (first : ManifestEntry) (rest : List ManifestEntry) :
    ∀ st ∈ first :: rest, st.timestamp ≤ (maxStateLoop first rest).timestamp := by
  induction rest generalizing first with
  | nil =>
    intro st hst
    rcases List.mem_cons.mp hst with h1 | h2
    · rw [h1]; simp [maxStateLoop]
    · simp at h2
  | cons e es ih =>
    intro st hst
    have hrec := ih (if e.timestamp > first.timestamp then e else first)
    have hgoal : maxStateLoop first (e :: es)
        = maxStateLoop (if e.timestamp > first.timestamp then e else first) es := by
      simp [maxStateLoop]
    rw [hgoal]
    have hfirst : first.timestamp
        ≤ (if e.timestamp > first.timestamp then e else first).timestamp := by
      by_cases hc : e.timestamp > first.timestamp
      · simp only [hc, if_true]; omega
      · simp [hc]
    have he : e.timestamp
        ≤ (if e.timestamp > first.timestamp then e else first).timestamp := by
      by_cases hc : e.timestamp > first.timestamp
      · simp [hc]
      · simp only [hc, if_false]; omega
    have hhead := hrec (if e.timestamp > first.timestamp then e else first)
      (List.mem_cons_self _ _)
    rcases List.mem_cons.mp hst with h1 | h2
    · rw [h1]; omega
    · rcases List.mem_cons.mp h2 with h3 | h4
      · rw [h3]; omega
      · exact hrec st (List.mem_cons_of_mem _ h4)

/-- Lookup at the extended key after `setdefault(k, []).extend(recs)`. -/
theorem setdefaultExtend_lookup_same {α : Type} (m : List (String × List α))
    (k : String) (recs : List α) :
    alistLookup k (setdefaultExtend m k recs)
      = some ((alistLookup k m).getD [] ++ recs) := by
  induction m with
  | nil => simp [setdefaultExtend, alistLookup]
  | cons kv rest ih =>
    by_cases hk : kv.1 = k
    · simp [setdefaultExtend, alistLookup, hk]
    · simpa [setdefaultExtend, alistLookup, hk] using ih

/-- Lookup at any other key is unchanged by
`setdefault(k, []).extend(recs)`. -/
theorem setdefaultExtend_lookup_other {α : Type} (m : List (String × List α))
    (k : String) (recs : List α) (k' : String) (hne : k' ≠ k) :
    alistLookup k' (setdefaultExtend m k recs) = alistLookup k' m := by
  induction m with
  | nil => simp [setdefaultExtend, alistLookup, Ne.symm hne]
  | cons kv rest ih =>
    by_cases hk : kv.1 = k
    · subst hk
      simp [setdefaultExtend, alistLookup, Ne.symm hne]
    · by_cases hk' : kv.1 = k'
      · simp [setdefaultExtend, alistLookup, hk, hk', hne]
      · simpa [setdefaultExtend, alistLookup, hk, hk'] using ih

/-- Folding the `final_cleanup` loop body over a list of names: the live
list ends as iterated `erase`, every name is appended to `removeCalls`
(and erased from `existing`), and nothing else changes. -/
theorem finalCleanup_fold (names : List String) (acc : List String) (w : DockerWorld) :
    names.foldl finalCleanupStep (acc, w)
      = (names.foldl (fun l n => l.erase n) acc,
         { started := w.started,
           existing := names.foldl (fun e n => e.erase n) w.existing,
           removeCalls := w.removeCalls ++ names }) := by
  induction names generalizing acc w with
  | nil => simp
  | cons n ns ih =>
    simp only [List.foldl_cons]
    rw [show finalCleanupStep (acc, w) n
        = (acc.erase n, { started := w.started, existing := w.existing.erase n,
                          removeCalls := w.removeCalls ++ [n] }) from rfl]
    rw [ih]
    simp

/-- Erasing, in order, every element of a list starting from the list
itself leaves the empty list. -/
theorem foldl_erase_self (l : List String) :
    l.foldl (fun acc n => acc.erase n) l = [] := by
  induction l with
  | nil => rfl
  | cons n ns ih =>
    simp only [List.foldl_cons, List.erase_cons_head]
    exact ih

/-- An undecodable line makes the extraction loop fail, from any starting
snapshot. -/
theorem extractLines_error_of_none_mem (ls : List Line) :
    ∀ fs, (none : Line) ∈ ls → ∃ e, extractLines fs ls = .error e := by
  induction ls with
  | nil => intro fs h; simp at h
  | cons l rest ih =>
    intro fs h
    rcases List.mem_cons.mp h with h1 | h2
    · refine ⟨.jsonDecodeError, ?_⟩
      rw [← h1]
      rfl
    · cases hp : processLine fs l with
      | error e => exact ⟨e, by simp [extractLines, hp]⟩
      | ok fs' =>
        obtain ⟨e, he⟩ := ih fs' h2
        exact ⟨e, by simp [extractLines, hp, he]⟩

/-! ### Claim theorems -/

/-- Claim C1, counterexample: the claim says that when the most recent
scheduled fire time is before **or equal to** the last recorded run time
the scheduler returns "skip".  At fire time `60` with last recorded run
time `60` (fire time equal to last run) the gate
`cron.get_prev() >= last_run_time` of `scheduler.py` line 197 holds, so
the task runs instead of being skipped. -/
theorem scheduler_equal_fire_time_runs :
    (60 : Int) ≤ lastRunTime [60] ∧
      schedulerTaskDecision 60 [60] ≠ TaskDecision.skip := by
  refine ⟨by decide, by decide⟩

/-- Claim C1, amended: the scheduler skips a job exactly when the most
recent scheduled cron fire time is **strictly** before the job's last
recorded run time; when the fire time equals the last recorded run time
the job is due and runs (`scheduler.py` line 197 uses `>=`). -/
theorem scheduler_skip_iff_fire_strictly_before (prevFire : Int) (recorded : List Int) :
    schedulerTaskDecision prevFire recorded = TaskDecision.skip
      ↔ prevFire < lastRunTime recorded := by
  unfold schedulerTaskDecision
  by_cases h : prevFire ≥ lastRunTime recorded
  · simp only [h, if_true]
    constructor
    · intro hc; cases hc
    · omega
  · simp only [h, if_false]
    constructor
    · intro _; omega
    · intro _; trivial

/-- Claim C2: the checkpoint extractor's snapshot update is
last-write-wins per stream by the `created` field: when a snapshot entry
for the stream exists and the new payload's `created` (default `0`) is
not strictly greater, the snapshot is unchanged — a later line with a
smaller `created` never overwrites a larger one; when the `created` is
strictly greater or no entry exists, the payload is stored; and for
`created` values `[5, 3, 9]` in that order the final snapshot for the
stream has `created == 9`. -/
theorem extractor_last_write_wins_by_created :
    (∀ (fs : Snapshot) (name : String) (sd cur curC newC : Json),
        Snapshot.get? fs name = some cur →
        pyDictGet cur "created" (.num 0) = .ok curC →
        pyDictGet sd "created" (.num 0) = .ok newC →
        pyLt curC newC = .ok false →
        updateStream fs name sd = .ok fs) ∧
    (∀ (fs : Snapshot) (name : String) (sd cur curC newC : Json),
        Snapshot.get? fs name = some cur →
        pyDictGet cur "created" (.num 0) = .ok curC →
        pyDictGet sd "created" (.num 0) = .ok newC →
        pyLt curC newC = .ok true →
        updateStream fs name sd = .ok (Snapshot.set fs name sd)) ∧
    (∀ (fs : Snapshot) (name : String) (sd : Json),
        Snapshot.get? fs name = none →
        updateStream fs name sd = .ok (Snapshot.set fs name sd)) ∧
    extract_state_from_data
        (.list [stateLine "S" 5, stateLine "S" 3, stateLine "S" 9]) none
      = .ok [("S", Json.obj [("created", Json.num 9)])] := by
  refine ⟨?_, ?_, ?_, rfl⟩
  · intro fs name sd cur curC newC h1 h2 h3 h4
    simp [updateStream, h1, h2, h3, h4]
  · intro fs name sd cur curC newC h1 h2 h3 h4
    simp [updateStream, h1, h2, h3, h4]
  · intro fs name sd h1
    simp [updateStream, h1]

/-- Claim C2, witness: a stored snapshot entry with `created == 9` is not
overwritten by a later payload with `created == 3`. -/
theorem extractor_last_write_wins_by_created_witness :
    updateStream [("S", Json.obj [("created", Json.num 9)])] "S"
        (Json.obj [("created", Json.num 3)])
      = .ok [("S", Json.obj [("created", Json.num 9)])] :=
  extractor_last_write_wins_by_created.1
    [("S", Json.obj [("created", Json.num 9)])] "S"
    (Json.obj [("created", Json.num 3)]) (Json.obj [("created", Json.num 9)])
    (Json.num 9) (Json.num 3) rfl rfl rfl rfl

/-- Claim C3: when the manifest has at least one checkpoint entry under
the job's key, `_get_max_state_from_manifest` returns the bare path
string `max_state['state_file_path']`, and `_render_task_cmd` then
evaluates `state.get('path')` on that string, which raises
`AttributeError` — the resume-state (`-t`) argument is never rendered.
When the manifest is absent the command is rendered without `-t`, as the
claim says. -/
theorem scheduler_checkpoint_render_crashes (task : Task) (dirs : SchedDirs)
    (m : List (String × List ManifestEntry)) (taskId : String)
    (e : ManifestEntry) (es : List ManifestEntry) :
    (alistLookup taskId m = some (e :: es) →
      render_task_cmd task dirs (getMaxStateFromManifest (some m) taskId)
        = .error .attributeError) ∧
    render_task_cmd task dirs (getMaxStateFromManifest none taskId)
      = .ok (taskCommand task dirs none) := by
  constructor
  · intro h
    simp [getMaxStateFromManifest, h, render_task_cmd, stateLocGet]
  · rfl

/-- Claim C3, witness: with one checkpoint entry for `job1` the rendered
command is an `AttributeError`, not a command containing `-t`. -/
theorem scheduler_checkpoint_render_crashes_witness :
    render_task_cmd ⟨"job1", "src", "dst"⟩ ⟨"/out", "/base", "/cfg"⟩
        (getMaxStateFromManifest (some [("job1", [⟨5, "/a"⟩])]) "job1")
      = .error .attributeError :=
  (scheduler_checkpoint_render_crashes ⟨"job1", "src", "dst"⟩
    ⟨"/out", "/base", "/cfg"⟩ [("job1", [⟨5, "/a"⟩])] "job1" ⟨5, "/a"⟩ []).1 rfl

/-- Claim C4: the manifest's latest-checkpoint query returns the
`state_file_path` of an entry whose `timestamp` is maximal over the job
key's list (membership and maximality proved), and returns the empty
dict when the manifest file is absent or the key's list is absent or
empty. -/
theorem manifest_latest_is_argmax (m : List (String × List ManifestEntry))
    (taskId : String) :
    getMaxStateFromManifest none taskId = .emptyDict ∧
    ((alistLookup taskId m = none ∨ alistLookup taskId m = some []) →
       getMaxStateFromManifest (some m) taskId = .emptyDict) ∧
    (∀ (e : ManifestEntry) (es : List ManifestEntry),
       alistLookup taskId m = some (e :: es) →
       maxStateLoop e es ∈ e :: es ∧
       (∀ st ∈ e :: es, st.timestamp ≤ (maxStateLoop e es).timestamp) ∧
       getMaxStateFromManifest (some m) taskId
         = .path (maxStateLoop e es).state_file_path) := by
  refine ⟨rfl, ?_, ?_⟩
  · rintro (h | h) <;> simp [getMaxStateFromManifest, h]
  · intro e es h
    exact ⟨maxStateLoop_mem e es, maxStateLoop_ge e es,
      by simp [getMaxStateFromManifest, h]⟩

/-- Claim C4, witness: over entries with timestamps `5, 9, 7` the query
resolves the entry with timestamp `9`. -/
theorem manifest_latest_is_argmax_witness :
    maxStateLoop ⟨5, "/a"⟩ [⟨9, "/b"⟩, ⟨7, "/c"⟩]
        ∈ [(⟨5, "/a"⟩ : ManifestEntry), ⟨9, "/b"⟩, ⟨7, "/c"⟩] ∧
    (∀ st ∈ [(⟨5, "/a"⟩ : ManifestEntry), ⟨9, "/b"⟩, ⟨7, "/c"⟩],
       st.timestamp ≤ (maxStateLoop ⟨5, "/a"⟩ [⟨9, "/b"⟩, ⟨7, "/c"⟩]).timestamp) ∧
    getMaxStateFromManifest (some [("job1", [⟨5, "/a"⟩, ⟨9, "/b"⟩, ⟨7, "/c"⟩])]) "job1"
      = .path (maxStateLoop ⟨5, "/a"⟩ [⟨9, "/b"⟩, ⟨7, "/c"⟩]).state_file_path :=
  (manifest_latest_is_argmax [("job1", [⟨5, "/a"⟩, ⟨9, "/b"⟩, ⟨7, "/c"⟩])] "job1").2.2
    ⟨5, "/a"⟩ [⟨9, "/b"⟩, ⟨7, "/c"⟩] rfl

/-- Claim C5: appending a new checkpoint entry list under a job key
keeps every other key's list unchanged and extends the key's own list
(creating it when absent) with the new records appended after the prior
history; an absent manifest file and an empty manifest file are both
treated as the empty map. -/
theorem manifest_append_preserves_history (α : Type) (file : ManifestFile α)
    (k : String) (recs : List α) (k' : String) :
    (k' ≠ k → alistLookup k' (save_manifest_content file [(k, recs)])
        = alistLookup k' (loadExistingManifest file)) ∧
    alistLookup k (save_manifest_content file [(k, recs)])
      = some ((alistLookup k (loadExistingManifest file)).getD [] ++ recs) ∧
    loadExistingManifest (ManifestFile.absent : ManifestFile α) = [] ∧
    loadExistingManifest (ManifestFile.present none : ManifestFile α) = [] := by
  refine ⟨?_, ?_, rfl, rfl⟩
  · intro hne
    exact setdefaultExtend_lookup_other _ _ _ _ hne
  · exact setdefaultExtend_lookup_same _ _ _

/-- Claim C5, witness: appending `[3]` under key `"a"` leaves key `"b"`
untouched. -/
theorem manifest_append_preserves_history_witness :
    alistLookup "b" (save_manifest_content
        (ManifestFile.present (some [("a", [1, 2]), ("b", [7])])) [("a", [3])])
      = alistLookup "b" (loadExistingManifest
        (ManifestFile.present (some [("a", [1, 2]), ("b", [7])]) : ManifestFile Nat)) :=
  (manifest_append_preserves_history Nat
    (ManifestFile.present (some [("a", [1, 2]), ("b", [7])])) "a" [3] "b").1
    (by decide)

/-- Claim C6, counterexample: in a successful orchestration pass the
extract/load run container (started by
`_run_container_with_entrypoint`, here named `"runc"`) is passed to
`client.containers.run` but is never added to `active_containers` — the
claim that every started container name is registered in the
ActiveContainerSet is false. -/
theorem run_container_started_but_not_tracked :
    "runc" ∈ (process_image ⟨[]⟩ ⟨[], [], []⟩ "chk" "runc" .ok 0 false).2.1.started ∧
    "runc" ∉ (process_image ⟨[]⟩ ⟨[], [], []⟩ "chk" "runc" .ok 0 false).1.active_containers := by
  decide

/-- Claim C6, amended: only the validation (config-check) containers
started by `run_image_check` are registered in `active_containers`;
extract/load run containers are started with `auto_remove` and never
registered; `final_cleanup` requests removal of every name held in
`active_containers` (regardless of what failed earlier) and leaves the
set empty. -/
theorem active_set_tracks_check_containers_and_is_cleared
    (h : Handler) (w : DockerWorld) (name : String) (exitCode : Int) (fails : Bool) :
    name ∈ (run_image_check h w name .ok exitCode).1.active_containers ∧
    (run_container_with_entrypoint h w name fails).1 = h ∧
    (final_cleanup h w).1.active_containers = [] ∧
    (final_cleanup h w).2.removeCalls = w.removeCalls ++ h.active_containers := by
  refine ⟨?_, ?_, ?_, ?_⟩
  · simp [run_image_check, cleanup_container]
  · cases fails <;> simp [run_container_with_entrypoint]
  · simp [final_cleanup, finalCleanup_fold, foldl_erase_self]
  · simp [final_cleanup, finalCleanup_fold]

/-- Claim C7: a non-zero exit of the validation container does **not**
raise — `containers.run` is called with `detach=True`, under which
docker-py never raises `ContainerError`, and the exit status returned by
`container.wait()` is discarded — so `run_image_check` returns `ok` for
every exit code, contradicting the claim (and the function's own
docstring); the cleanup half of the claim holds: removal of the
validation container is requested on every path before returning. -/
theorem image_check_nonzero_exit_not_raised
    (h : Handler) (w : DockerWorld) (name : String) (exitCode : Int)
    (start : StartOutcome) :
    (run_image_check h w name .ok exitCode).2.2 = .ok () ∧
    name ∈ (run_image_check h w name start exitCode).2.1.removeCalls := by
  constructor
  · rfl
  · cases start <;> simp [run_image_check, cleanup_container]

/-- Claim C8: an input containing a line that `json.loads` rejects makes
the extraction raise (the `Exception("Error decoding JSON: ...")` of
`state.py` line 111), aborting the whole run with an error instead of
any partial snapshot. -/
theorem malformed_line_aborts_extraction (ls : List Line)
    (h : (none : Line) ∈ ls) :
    ∃ e, extract_state_from_data (.list ls) none = .error e := by
  obtain ⟨e, he⟩ := extractLines_error_of_none_mem ls [] h
  exact ⟨e, by simp [extract_state_from_data, he]⟩

/-- Claim C8, witness: a single undecodable line aborts extraction. -/
theorem malformed_line_aborts_extraction_witness :
    ∃ e, extract_state_from_data (.list [none]) none = .error e :=
  malformed_line_aborts_extraction [none] (List.mem_singleton.mpr rfl)

/-- Claim C9: checkpoint extraction is deterministic and hence
idempotent to re-run: two extraction computations over the same sequence
of lines (and the same `test_state` argument) produce the same
`StateSnapshot` — in this embedding the extractor is a pure function of
its input, which is exactly the content of the claim. -/
theorem extraction_deterministic (d1 d2 : ExtractData) (ts1 ts2 : Option Snapshot)
    (hd : d1 = d2) (ht : ts1 = ts2) :
    extract_state_from_data d1 ts1 = extract_state_from_data d2 ts2 := by
  rw [hd, ht]

/-- Claim C9, witness: re-extracting the `[5, 3, 9]` example yields the
same snapshot. -/
theorem extraction_deterministic_witness :
    extract_state_from_data
        (.list [stateLine "S" 5, stateLine "S" 3, stateLine "S" 9]) none
      = extract_state_from_data
        (.list [stateLine "S" 5, stateLine "S" 3, stateLine "S" 9]) none :=
  extraction_deterministic _ _ _ _ rfl rfl

/-- Claim C10: when `extract_state_from_data` receives a single JSON
object (the `isinstance(data, dict)` branch), it returns the empty
snapshot whatever the object holds — the branch binds `obj = data` and
never inspects it. -/
theorem dict_input_yields_empty_snapshot (j : Json) :
    extract_state_from_data (.dict j) none = .ok [] := rfl

end Airbridge
